import Mathlib

/-!
Verification of the C boundary layer `remixapi.c` of py-rtx-remix.

The repository holds two revisions of the boundary file.  Both are embedded
here: definitions suffixed `_v1` come from the first revision, `_v2` from the
second.  `init` is textually identical in the two revisions and is embedded
once.  External effects (filesystem attribute probes, the SDK loader, the
renderer entries reached through the function table) are modelled by an
environment record `Env`; every boundary operation returns its result, the
updated process-wide state, and the list of external calls it performed.
-/

namespace PyRtxRemix

/-- `remixapi_ErrorCode`: a success sentinel plus renderer-defined codes. -/
abbrev ErrorCode := Nat

def REMIXAPI_ERROR_CODE_SUCCESS : ErrorCode := 0

abbrev StartupInfo := Nat
abbrev CameraInfo := Nat
abbrev PresentInfo := Nat
abbrev MeshInfo := Nat
abbrev LightInfo := Nat
abbrev MaterialInfo := Nat
abbrev InstanceInfo := Nat
abbrev MeshHandle := Nat
abbrev LightHandle := Nat
abbrev MaterialHandle := Nat

/-- A function-pointer value inside the function table; `0` models `NULL`. -/
abbrev FnPtr := Nat

/-- An `HMODULE` value; `0` models `NULL`. -/
abbrev HMODULE := Nat

/-- `remixapi_Interface`: the process-wide function table, one pointer per
renderer operation (the entries the two revisions actually reach). -/
structure remixapi_Interface where
  Startup : FnPtr
  Shutdown : FnPtr
  SetupCamera : FnPtr
  Present : FnPtr
  CreateMesh : FnPtr
  DestroyMesh : FnPtr
  CreateLight : FnPtr
  DestroyLight : FnPtr
  CreateMaterial : FnPtr
  DestroyMaterial : FnPtr
  DrawInstance : FnPtr
  DrawLightInstance : FnPtr
deriving DecidableEq

/-- `remixapi_Interface g_remix = { 0 };` — the zero-initialised table. -/
def zeroInterface : remixapi_Interface :=
  ⟨0, 0, 0, 0, 0, 0, 0, 0, 0, 0, 0, 0⟩

/-- The process-wide mutable state of the boundary layer: the globals
`g_remix` and `g_remix_dll`. -/
structure GState where
  g_remix : remixapi_Interface
  g_remix_dll : HMODULE
deriving DecidableEq

/-- The initial state: zeroed table, `NULL` library handle. -/
def initialState : GState :=
  { g_remix := zeroInterface, g_remix_dll := 0 }

/-- Tags for the diagnostic texts the boundary prints. -/
inductive Diag where
  | discovery
  | loadFailed
  | startupFailed
  | createMeshFailed
  | createLightFailed
deriving DecidableEq

/-- One observable external call made by a boundary operation. -/
inductive ExtCall where
  | getFileAttributes (path : String)
  | printfDiag (d : Diag)
  | loadDll (path : String)
  | callStartup
  | callShutdownAndUnload
  | callSetupCamera
  | callPresent
  | callCreateMesh
  | callDestroyMesh
  | callCreateLight
  | callDestroyLight
  | callCreateMaterial
  | callDestroyMaterial
  | callDrawInstance
  | callDrawLightInstance
deriving DecidableEq

/-- The external world: filesystem probe answers, the SDK loader's outcome,
and the behaviour of every renderer entry reached through the table. -/
structure Env where
  fileExists : String → Bool
  loadCode : String → ErrorCode
  loadedTable : remixapi_Interface
  loadedDll : HMODULE
  startupCode : StartupInfo → ErrorCode
  shutdownUnloadCode : ErrorCode
  setupCameraCode : CameraInfo → ErrorCode
  createMeshCode : MeshInfo → ErrorCode
  createMeshHandle : MeshInfo → MeshHandle
  destroyMeshCode : MeshHandle → ErrorCode
  createLightCode : LightInfo → ErrorCode
  createLightHandle : LightInfo → LightHandle
  destroyLightCode : LightHandle → ErrorCode
  createMaterialCode : MaterialInfo → ErrorCode
  createMaterialHandle : MaterialInfo → MaterialHandle
  destroyMaterialCode : MaterialHandle → ErrorCode
  drawInstanceCode : InstanceInfo → ErrorCode
  drawLightInstanceCode : LightHandle → ErrorCode

/-- Result of one boundary operation: the returned value, the state of the
globals afterwards, and the external calls performed in order. -/
structure CallResult (α : Type) where
  ret : α
  state : GState
  calls : List ExtCall

/-- Modelled from the spec: the SDK helper `remixapi_lib_loadRemixDllAndInitialize`
(declared in `remix/remix_c.h`, which is not part of src/) loads the binary at
`path` and populates the function table and library handle on success; a
failure returns the binder error and keeps the state at Unloaded, leaving both
globals untouched (spec sections 4.2 and 4.3). -/
def remixapi_lib_loadRemixDllAndInit (env : Env) (path : String) (s : GState) :
    ErrorCode × GState :=
  let status := env.loadCode path
  if status = REMIXAPI_ERROR_CODE_SUCCESS then
    (status, { g_remix := env.loadedTable, g_remix_dll := env.loadedDll })
  else
    (status, s)

/-- Modelled from the spec: the SDK helper `remixapi_lib_shutdownAndUnloadRemixDll`
(declared in `remix/remix_c.h`, which is not part of src/) invokes Shutdown,
releases the loaded-library handle, and zeroes the function table
(spec section 4.3: Started to Stopped). -/
def remixapi_lib_shutdownAndUnloadRemixDll (env : Env) (s : GState) :
    ErrorCode × GState :=
  let _ := s
  (env.shutdownUnloadCode, { g_remix := zeroInterface, g_remix_dll := 0 })

/-- `init` (textually identical in both revisions): probe `d3d9.dll`, then
`bin\d3d9.dll`, warning when both probes fail; load the renderer dll and
initialise the globals; invoke the table's Startup entry. -/
def init (env : Env) (startupInfo : StartupInfo) (s : GState) :
    CallResult ErrorCode :=
  let path0 := "d3d9.dll"
  let probe0 := [ExtCall.getFileAttributes path0]
  let pathAndTrace :=
    if env.fileExists path0 = false then
      let path1 := "bin\\d3d9.dll"
      let probe1 := probe0 ++ [ExtCall.getFileAttributes path1]
      if env.fileExists path1 = false then
        (path1, probe1 ++ [ExtCall.printfDiag Diag.discovery])
      else
        (path1, probe1)
    else
      (path0, probe0)
  let path := pathAndTrace.1
  let tLoc := pathAndTrace.2
  let loaded := remixapi_lib_loadRemixDllAndInit env path s
  let status := loaded.1
  let s1 := loaded.2
  let tLoad := tLoc ++ [ExtCall.loadDll path]
  if status ≠ REMIXAPI_ERROR_CODE_SUCCESS then
    { ret := status, state := s1, calls := tLoad ++ [ExtCall.printfDiag Diag.loadFailed] }
  else
    let r := env.startupCode startupInfo
    let tStart := tLoad ++ [ExtCall.callStartup]
    if r ≠ REMIXAPI_ERROR_CODE_SUCCESS then
      { ret := r, state := s1, calls := tStart ++ [ExtCall.printfDiag Diag.startupFailed] }
    else
      { ret := REMIXAPI_ERROR_CODE_SUCCESS, state := s1, calls := tStart }

/-- Revision 1 `setup_camera`: `return g_remix.SetupCamera(cam_info);`. -/
def setup_camera_v1 (env : Env) (cam_info : CameraInfo) (s : GState) :
    CallResult ErrorCode :=
  { ret := env.setupCameraCode cam_info, state := s, calls := [ExtCall.callSetupCamera] }

/-- Revision 1 `present` (declared `void`): `g_remix.Present(info);`. -/
def present_v1 (env : Env) (info : PresentInfo) (s : GState) : CallResult Unit :=
  let _ := env
  let _ := info
  { ret := (), state := s, calls := [ExtCall.callPresent] }

/-- Revision 1 `create_mesh`: `return g_remix.CreateMesh(info, handle);`. -/
def create_mesh_v1 (env : Env) (info : MeshInfo) (s : GState) :
    CallResult (ErrorCode × MeshHandle) :=
  { ret := (env.createMeshCode info, env.createMeshHandle info),
    state := s, calls := [ExtCall.callCreateMesh] }

/-- Revision 1 `destroy_mesh`: `return g_remix.DestroyMesh(handle);`. -/
def destroy_mesh_v1 (env : Env) (handle : MeshHandle) (s : GState) :
    CallResult ErrorCode :=
  { ret := env.destroyMeshCode handle, state := s, calls := [ExtCall.callDestroyMesh] }

/-- Revision 1 `create_light`: `return g_remix.CreateLight(info, handle);`. -/
def create_light_v1 (env : Env) (info : LightInfo) (s : GState) :
    CallResult (ErrorCode × LightHandle) :=
  { ret := (env.createLightCode info, env.createLightHandle info),
    state := s, calls := [ExtCall.callCreateLight] }

/-- Revision 1 `destroy_light`: `return g_remix.DestroyLight(handle);`. -/
def destroy_light_v1 (env : Env) (handle : LightHandle) (s : GState) :
    CallResult ErrorCode :=
  { ret := env.destroyLightCode handle, state := s, calls := [ExtCall.callDestroyLight] }

/-- Revision 1 `create_material`: `return g_remix.CreateMaterial(info, handle);`. -/
def create_material_v1 (env : Env) (info : MaterialInfo) (s : GState) :
    CallResult (ErrorCode × MaterialHandle) :=
  { ret := (env.createMaterialCode info, env.createMaterialHandle info),
    state := s, calls := [ExtCall.callCreateMaterial] }

/-- Revision 1 `destroy_material`: `return g_remix.DestroyMaterial(handle);`. -/
def destroy_material_v1 (env : Env) (handle : MaterialHandle) (s : GState) :
    CallResult ErrorCode :=
  { ret := env.destroyMaterialCode handle, state := s, calls := [ExtCall.callDestroyMaterial] }

/-- Revision 1 `draw_instance`: `return g_remix.DrawInstance(info);`. -/
def draw_instance_v1 (env : Env) (info : InstanceInfo) (s : GState) :
    CallResult ErrorCode :=
  { ret := env.drawInstanceCode info, state := s, calls := [ExtCall.callDrawInstance] }

/-- Revision 1 `draw_light_instance`: `return g_remix.DrawLightInstance(handle);`. -/
def draw_light_instance_v1 (env : Env) (handle : LightHandle) (s : GState) :
    CallResult ErrorCode :=
  { ret := env.drawLightInstanceCode handle, state := s,
    calls := [ExtCall.callDrawLightInstance] }

/-- Revision 1 `destroy`, declared `remixapi_ErrorCode`: when `g_remix.Shutdown`
is non-null it returns the shutdown-and-unload code; on the null branch control
falls off the end of the function without a return statement, modelled as
`none` (no defined return value). -/
def destroy_v1 (env : Env) (s : GState) : CallResult (Option ErrorCode) :=
  if s.g_remix.Shutdown ≠ 0 then
    let r := remixapi_lib_shutdownAndUnloadRemixDll env s
    { ret := some r.1, state := r.2, calls := [ExtCall.callShutdownAndUnload] }
  else
    { ret := none, state := s, calls := [] }

/-- Revision 2 `setup_camera` (declared `void`): `g_remix.SetupCamera(cam_info);`. -/
def setup_camera_v2 (env : Env) (cam_info : CameraInfo) (s : GState) : CallResult Unit :=
  let _ := env.setupCameraCode cam_info
  { ret := (), state := s, calls := [ExtCall.callSetupCamera] }

/-- Revision 2 `present` (declared `void`): `g_remix.Present(info);`. -/
def present_v2 (env : Env) (info : PresentInfo) (s : GState) : CallResult Unit :=
  let _ := env
  let _ := info
  { ret := (), state := s, calls := [ExtCall.callPresent] }

/-- Revision 2 `create_mesh`: forwards `g_remix.CreateMesh`, printing a
diagnostic on a non-success code, and returns the code either way. -/
def create_mesh_v2 (env : Env) (info : MeshInfo) (s : GState) :
    CallResult (ErrorCode × MeshHandle) :=
  let r := env.createMeshCode info
  if r ≠ REMIXAPI_ERROR_CODE_SUCCESS then
    { ret := (r, env.createMeshHandle info), state := s,
      calls := [ExtCall.callCreateMesh, ExtCall.printfDiag Diag.createMeshFailed] }
  else
    { ret := (REMIXAPI_ERROR_CODE_SUCCESS, env.createMeshHandle info), state := s,
      calls := [ExtCall.callCreateMesh] }

/-- Revision 2 `create_light`: forwards `g_remix.CreateLight`, printing a
diagnostic on a non-success code, and returns the code either way. -/
def create_light_v2 (env : Env) (info : LightInfo) (s : GState) :
    CallResult (ErrorCode × LightHandle) :=
  let r := env.createLightCode info
  if r ≠ REMIXAPI_ERROR_CODE_SUCCESS then
    { ret := (r, env.createLightHandle info), state := s,
      calls := [ExtCall.callCreateLight, ExtCall.printfDiag Diag.createLightFailed] }
  else
    { ret := (REMIXAPI_ERROR_CODE_SUCCESS, env.createLightHandle info), state := s,
      calls := [ExtCall.callCreateLight] }

/-- Revision 2 `draw_instance` (declared `void`): `g_remix.DrawInstance(info);`. -/
def draw_instance_v2 (env : Env) (info : InstanceInfo) (s : GState) : CallResult Unit :=
  let _ := env.drawInstanceCode info
  { ret := (), state := s, calls := [ExtCall.callDrawInstance] }

/-- Revision 2 `draw_light_instance` (declared `void`): `g_remix.DrawLightInstance(handle);`. -/
def draw_light_instance_v2 (env : Env) (handle : LightHandle) (s : GState) : CallResult Unit :=
  let _ := env.drawLightInstanceCode handle
  { ret := (), state := s, calls := [ExtCall.callDrawLightInstance] }

/-- Revision 2 `destroy` (declared `void`): guarded shutdown-and-unload. -/
def destroy_v2 (env : Env) (s : GState) : CallResult Unit :=
  if s.g_remix.Shutdown ≠ 0 then
    let r := remixapi_lib_shutdownAndUnloadRemixDll env s
    { ret := (), state := r.2, calls := [ExtCall.callShutdownAndUnload] }
  else
    { ret := (), state := s, calls := [] }

/-- Result shape an exported boundary operation is declared with. -/
inductive RetShape where
  | code
  | void
deriving DecidableEq

/-- The exported boundary operations named across the two revisions. -/
inductive BoundaryOp where
  | opInit
  | opSetupCamera
  | opPresent
  | opCreateMesh
  | opDestroyMesh
  | opCreateLight
  | opDestroyLight
  | opCreateMaterial
  | opDestroyMaterial
  | opDrawInstance
  | opDrawLightInstance
  | opDestroy
deriving DecidableEq

/-- Declared result shape of each export in revision 1 (`none` = not exported). -/
def sigV1 : BoundaryOp → Option RetShape
  | BoundaryOp.opInit => some RetShape.code
  | BoundaryOp.opSetupCamera => some RetShape.code
  | BoundaryOp.opPresent => some RetShape.void
  | BoundaryOp.opCreateMesh => some RetShape.code
  | BoundaryOp.opDestroyMesh => some RetShape.code
  | BoundaryOp.opCreateLight => some RetShape.code
  | BoundaryOp.opDestroyLight => some RetShape.code
  | BoundaryOp.opCreateMaterial => some RetShape.code
  | BoundaryOp.opDestroyMaterial => some RetShape.code
  | BoundaryOp.opDrawInstance => some RetShape.code
  | BoundaryOp.opDrawLightInstance => some RetShape.code
  | BoundaryOp.opDestroy => some RetShape.code

/-- Declared result shape of each export in revision 2 (`none` = not exported). -/
def sigV2 : BoundaryOp → Option RetShape
  | BoundaryOp.opInit => some RetShape.code
  | BoundaryOp.opSetupCamera => some RetShape.void
  | BoundaryOp.opPresent => some RetShape.void
  | BoundaryOp.opCreateMesh => some RetShape.code
  | BoundaryOp.opDestroyMesh => none
  | BoundaryOp.opCreateLight => some RetShape.code
  | BoundaryOp.opDestroyLight => none
  | BoundaryOp.opCreateMaterial => none
  | BoundaryOp.opDestroyMaterial => none
  | BoundaryOp.opDrawInstance => some RetShape.void
  | BoundaryOp.opDrawLightInstance => some RetShape.void
  | BoundaryOp.opDestroy => some RetShape.void

/-- Paths handed to the dll loader within a call trace, in order. -/
def loadPathsOf : List ExtCall → List String
  | [] => []
  | ExtCall.loadDll p :: rest => p :: loadPathsOf rest
  | _ :: rest => loadPathsOf rest

/-- Whether the discovery diagnostic was printed in a call trace. -/
def hasDiscoveryDiag (t : List ExtCall) : Bool :=
  t.contains (ExtCall.printfDiag Diag.discovery)

/-- No Startup call occurs before the first dll-load call of a trace. -/
def startupOnlyAfterLoad : List ExtCall → Bool
  | [] => true
  | ExtCall.callStartup :: _ => false
  | ExtCall.loadDll _ :: _ => true
  | _ :: rest => startupOnlyAfterLoad rest

/-- The path `init` actually hands to the loader (primary when its probe
succeeds, otherwise the secondary, also when both probes fail). -/
def locPath (env : Env) : String :=
  if env.fileExists "d3d9.dll" then "d3d9.dll" else "bin\\d3d9.dll"

/-- A fully bound function table, for concrete test states. -/
def tableFull : remixapi_Interface :=
  ⟨1, 2, 3, 4, 5, 6, 7, 8, 9, 10, 11, 12⟩

/-- A benign concrete environment: both probes succeed, every external call
reports success. -/
def baseEnv : Env where
  fileExists := fun _ => true
  loadCode := fun _ => 0
  loadedTable := tableFull
  loadedDll := 42
  startupCode := fun _ => 0
  shutdownUnloadCode := 0
  setupCameraCode := fun _ => 0
  createMeshCode := fun _ => 0
  createMeshHandle := fun _ => 100
  destroyMeshCode := fun _ => 0
  createLightCode := fun _ => 0
  createLightHandle := fun _ => 200
  destroyLightCode := fun _ => 0
  createMaterialCode := fun _ => 0
  createMaterialHandle := fun _ => 300
  destroyMaterialCode := fun _ => 0
  drawInstanceCode := fun _ => 0
  drawLightInstanceCode := fun _ => 0

/-- Environment in which neither probed location holds the dll. -/
def envAllMissing : Env :=
  { baseEnv with fileExists := fun _ => false }

/-- Environment in which the dll load step fails with native code 3. -/
def envLoadFail : Env :=
  { baseEnv with loadCode := fun _ => 3 }

/-- Environment whose renderer Startup rejects startup info `0` with native
code 7 and accepts any other startup info. -/
def envStartupPicky : Env :=
  { baseEnv with startupCode := fun i => if i = 0 then 7 else 0 }

/-- A concrete post-load state: fully bound table, live library handle. -/
def loadedState : GState :=
  { g_remix := tableFull, g_remix_dll := 42 }

/-- Claim C1, counterexample: when neither probe succeeds, `init` hands the
loader the secondary path `bin\d3d9.dll`, not the primary path `d3d9.dll`
that the claim says the load attempt continues with. -/
theorem C1_counterexample :
    hasDiscoveryDiag (init envAllMissing 0 initialState).calls = true ∧
    loadPathsOf (init envAllMissing 0 initialState).calls = ["bin\\d3d9.dll"] ∧
    loadPathsOf (init envAllMissing 0 initialState).calls ≠ ["d3d9.dll"] := by
  refine ⟨rfl, rfl, ?_⟩
  decide

/-- Claim C1, amended: the locator selects the primary path when its probe
succeeds, else the secondary path; when neither probe succeeds it emits the
diagnostic and continues the load attempt with the secondary candidate path
(never a third path). -/
theorem C1_locator_selection (env : Env) (info : StartupInfo) (s : GState) :
    loadPathsOf (init env info s).calls = [locPath env] ∧
    hasDiscoveryDiag (init env info s).calls =
      (!env.fileExists "d3d9.dll" && !env.fileExists "bin\\d3d9.dll") := by
  cases hA : env.fileExists "d3d9.dll" <;>
    cases hB : env.fileExists "bin\\d3d9.dll" <;>
      by_cases hL : env.loadCode (locPath env) = REMIXAPI_ERROR_CODE_SUCCESS <;>
        by_cases hR : env.startupCode info = REMIXAPI_ERROR_CODE_SUCCESS <;>
          simp_all [init, locPath, remixapi_lib_loadRemixDllAndInit,
            loadPathsOf, hasDiscoveryDiag]

/-- Claim C2, counterexample: `present` is declared `void` in both observed
revisions (and forwards identically), so the two revisions do not differ in
the result shape of `present`. -/
theorem C2_counterexample :
    sigV1 BoundaryOp.opPresent = some RetShape.void ∧
    sigV2 BoundaryOp.opPresent = some RetShape.void ∧
    (present_v1 baseEnv 0 initialState).ret = (present_v2 baseEnv 0 initialState).ret := by
  exact ⟨rfl, rfl, rfl⟩

/-- Claim C2, amended: across the two observed revisions `present` returns no
result code in either revision; the operations whose result shapes differ
between the revisions are setup_camera, draw_instance, draw_light_instance
and destroy, not present. -/
theorem C2_result_shapes :
    sigV1 BoundaryOp.opPresent = sigV2 BoundaryOp.opPresent ∧
    sigV1 BoundaryOp.opPresent = some RetShape.void ∧
    sigV1 BoundaryOp.opSetupCamera ≠ sigV2 BoundaryOp.opSetupCamera ∧
    sigV1 BoundaryOp.opDrawInstance ≠ sigV2 BoundaryOp.opDrawInstance ∧
    sigV1 BoundaryOp.opDrawLightInstance ≠ sigV2 BoundaryOp.opDrawLightInstance ∧
    sigV1 BoundaryOp.opDestroy ≠ sigV2 BoundaryOp.opDestroy := by
  decide

/-- Claim C3: when the load step succeeds and the table's Startup entry
returns a non-success code, `init` returns exactly that code and leaves the
globals in the loaded state; a subsequent `init` whose Startup call succeeds
returns the success sentinel. -/
theorem C3_startup_failure (env : Env) (info info2 : StartupInfo) (s : GState)
    (hload : env.loadCode (locPath env) = REMIXAPI_ERROR_CODE_SUCCESS)
    (hr : env.startupCode info ≠ REMIXAPI_ERROR_CODE_SUCCESS)
    (h2 : env.startupCode info2 = REMIXAPI_ERROR_CODE_SUCCESS) :
    (init env info s).ret = env.startupCode info ∧
    (init env info s).state =
      { g_remix := env.loadedTable, g_remix_dll := env.loadedDll } ∧
    (init env info2 (init env info s).state).ret = REMIXAPI_ERROR_CODE_SUCCESS := by
  cases hA : env.fileExists "d3d9.dll" <;>
    cases hB : env.fileExists "bin\\d3d9.dll" <;>
      simp_all [init, locPath, remixapi_lib_loadRemixDllAndInit]

/-- Claim C3, witness: renderer rejecting startup info 0 with native code 7;
init returns 7, state stays loaded, a retry with startup info 1 succeeds. -/
theorem C3_startup_failure_witness :
    envStartupPicky.loadCode (locPath envStartupPicky) = REMIXAPI_ERROR_CODE_SUCCESS ∧
    envStartupPicky.startupCode 0 ≠ REMIXAPI_ERROR_CODE_SUCCESS ∧
    envStartupPicky.startupCode 1 = REMIXAPI_ERROR_CODE_SUCCESS ∧
    ((init envStartupPicky 0 initialState).ret = envStartupPicky.startupCode 0 ∧
     (init envStartupPicky 0 initialState).state =
       { g_remix := envStartupPicky.loadedTable, g_remix_dll := envStartupPicky.loadedDll } ∧
     (init envStartupPicky 1 (init envStartupPicky 0 initialState).state).ret =
       REMIXAPI_ERROR_CODE_SUCCESS) :=
  ⟨by decide, by decide, by decide,
   C3_startup_failure envStartupPicky 0 1 initialState (by decide) (by decide) (by decide)⟩

/-- Claim C4: when the load-and-initialize step returns a non-success code,
`init` returns that code unchanged, leaves the globals exactly as they were,
and never invokes the table's Startup entry. -/
theorem C4_load_failure (env : Env) (info : StartupInfo) (s : GState)
    (h : env.loadCode (locPath env) ≠ REMIXAPI_ERROR_CODE_SUCCESS) :
    (init env info s).ret = env.loadCode (locPath env) ∧
    (init env info s).state = s ∧
    ExtCall.callStartup ∉ (init env info s).calls := by
  cases hA : env.fileExists "d3d9.dll" <;>
    cases hB : env.fileExists "bin\\d3d9.dll" <;>
      simp_all [init, locPath, remixapi_lib_loadRemixDllAndInit]

/-- Claim C4, witness: a loader failing with native code 3; init returns 3,
the globals stay zeroed, Startup is never called. -/
theorem C4_load_failure_witness :
    envLoadFail.loadCode (locPath envLoadFail) ≠ REMIXAPI_ERROR_CODE_SUCCESS ∧
    ((init envLoadFail 0 initialState).ret = envLoadFail.loadCode (locPath envLoadFail) ∧
     (init envLoadFail 0 initialState).state = initialState ∧
     ExtCall.callStartup ∉ (init envLoadFail 0 initialState).calls) :=
  ⟨by decide, C4_load_failure envLoadFail 0 initialState (by decide)⟩

/-- Claim C7: discovery failure alone never makes `init` fail — the load step
is always attempted (on the path the locator chose), `init`'s result is
always the success sentinel, the load step's code, or Startup's code, and
when both probes fail the diagnostic is printed and the load still proceeds
on the secondary path. -/
theorem C7_discovery_nonfatal (env : Env) (info : StartupInfo) (s : GState) :
    loadPathsOf (init env info s).calls = [locPath env] ∧
    ((init env info s).ret = REMIXAPI_ERROR_CODE_SUCCESS ∨
     (init env info s).ret = env.loadCode (locPath env) ∨
     (init env info s).ret = env.startupCode info) ∧
    (env.fileExists "d3d9.dll" = false → env.fileExists "bin\\d3d9.dll" = false →
      hasDiscoveryDiag (init env info s).calls = true) := by
  cases hA : env.fileExists "d3d9.dll" <;>
    cases hB : env.fileExists "bin\\d3d9.dll" <;>
      by_cases hL : env.loadCode (locPath env) = REMIXAPI_ERROR_CODE_SUCCESS <;>
        by_cases hR : env.startupCode info = REMIXAPI_ERROR_CODE_SUCCESS <;>
          simp_all [init, locPath, remixapi_lib_loadRemixDllAndInit,
            loadPathsOf, hasDiscoveryDiag]

/-- Claim C7, witness: with both probes failing and a benign loader and
renderer, init still loads on the secondary path, returns success, and
printed the discovery diagnostic. -/
theorem C7_discovery_nonfatal_witness :
    loadPathsOf (init envAllMissing 0 initialState).calls = [locPath envAllMissing] ∧
    ((init envAllMissing 0 initialState).ret = REMIXAPI_ERROR_CODE_SUCCESS ∨
     (init envAllMissing 0 initialState).ret = envAllMissing.loadCode (locPath envAllMissing) ∨
     (init envAllMissing 0 initialState).ret = envAllMissing.startupCode 0) ∧
    (envAllMissing.fileExists "d3d9.dll" = false →
      envAllMissing.fileExists "bin\\d3d9.dll" = false →
      hasDiscoveryDiag (init envAllMissing 0 initialState).calls = true) :=
  C7_discovery_nonfatal envAllMissing 0 initialState

/-- Claim C9: in every execution of `init`, the table's Startup entry is
invoked exactly when the load step returned the success sentinel, and never
before the dll-load call in the trace; on a load failure `init` never calls
through the still-zeroed table. -/
theorem C9_startup_after_load (env : Env) (info : StartupInfo) (s : GState) :
    (ExtCall.callStartup ∈ (init env info s).calls ↔
      env.loadCode (locPath env) = REMIXAPI_ERROR_CODE_SUCCESS) ∧
    startupOnlyAfterLoad (init env info s).calls = true := by
  cases hA : env.fileExists "d3d9.dll" <;>
    cases hB : env.fileExists "bin\\d3d9.dll" <;>
      by_cases hL : env.loadCode (locPath env) = REMIXAPI_ERROR_CODE_SUCCESS <;>
        by_cases hR : env.startupCode info = REMIXAPI_ERROR_CODE_SUCCESS <;>
          simp_all [init, locPath, remixapi_lib_loadRemixDllAndInit,
            startupOnlyAfterLoad]

/-- Claim C9, witness: with a failing loader, Startup does not appear in the
trace; the trace never places Startup before the load call. -/
theorem C9_startup_after_load_witness :
    (ExtCall.callStartup ∈ (init envLoadFail 0 initialState).calls ↔
      envLoadFail.loadCode (locPath envLoadFail) = REMIXAPI_ERROR_CODE_SUCCESS) ∧
    startupOnlyAfterLoad (init envLoadFail 0 initialState).calls = true :=
  C9_startup_after_load envLoadFail 0 initialState

/-- Claim C5: in both revisions, `destroy` invokes the shutdown-and-unload
routine exactly when the table's Shutdown entry is non-null; when Shutdown is
null it performs no external call and leaves the globals untouched; and a
second `destroy` right after a first one never attempts another unload, since
the first either zeroed the table or did nothing to an already-zeroed one. -/
theorem C5_destroy_guard (env env2 : Env) (s : GState) :
    (ExtCall.callShutdownAndUnload ∈ (destroy_v1 env s).calls ↔
      s.g_remix.Shutdown ≠ 0) ∧
    (ExtCall.callShutdownAndUnload ∈ (destroy_v2 env s).calls ↔
      s.g_remix.Shutdown ≠ 0) ∧
    (s.g_remix.Shutdown = 0 →
      (destroy_v1 env s).state = s ∧ (destroy_v1 env s).calls = [] ∧
      (destroy_v2 env s).state = s ∧ (destroy_v2 env s).calls = []) ∧
    (destroy_v1 env2 (destroy_v1 env s).state).calls = [] ∧
    (destroy_v2 env2 (destroy_v2 env s).state).calls = [] := by
  by_cases h : s.g_remix.Shutdown = 0 <;>
    simp_all [destroy_v1, destroy_v2, remixapi_lib_shutdownAndUnloadRemixDll,
      zeroInterface]

/-- Claim C5, witness: on a loaded state the unload happens; the state it
leaves behind makes a second destroy a no-op in both revisions. -/
theorem C5_destroy_guard_witness :
    (ExtCall.callShutdownAndUnload ∈ (destroy_v1 baseEnv loadedState).calls ↔
      loadedState.g_remix.Shutdown ≠ 0) ∧
    (ExtCall.callShutdownAndUnload ∈ (destroy_v2 baseEnv loadedState).calls ↔
      loadedState.g_remix.Shutdown ≠ 0) ∧
    (loadedState.g_remix.Shutdown = 0 →
      (destroy_v1 baseEnv loadedState).state = loadedState ∧
      (destroy_v1 baseEnv loadedState).calls = [] ∧
      (destroy_v2 baseEnv loadedState).state = loadedState ∧
      (destroy_v2 baseEnv loadedState).calls = []) ∧
    (destroy_v1 baseEnv (destroy_v1 baseEnv loadedState).state).calls = [] ∧
    (destroy_v2 baseEnv (destroy_v2 baseEnv loadedState).state).calls = [] :=
  C5_destroy_guard baseEnv baseEnv loadedState

/-- Claim C6: every Resource Gateway operation present in each revision
returns the underlying renderer entry's code unchanged and invokes that entry
exactly once. -/
theorem C6_gateway_passthrough (env : Env) (mi : MeshInfo) (mh : MeshHandle)
    (li : LightInfo) (lh : LightHandle) (qi : MaterialInfo) (qh : MaterialHandle)
    (s : GState) :
    (create_mesh_v1 env mi s).ret.1 = env.createMeshCode mi ∧
    (create_mesh_v1 env mi s).calls.count ExtCall.callCreateMesh = 1 ∧
    (destroy_mesh_v1 env mh s).ret = env.destroyMeshCode mh ∧
    (destroy_mesh_v1 env mh s).calls.count ExtCall.callDestroyMesh = 1 ∧
    (create_light_v1 env li s).ret.1 = env.createLightCode li ∧
    (create_light_v1 env li s).calls.count ExtCall.callCreateLight = 1 ∧
    (destroy_light_v1 env lh s).ret = env.destroyLightCode lh ∧
    (destroy_light_v1 env lh s).calls.count ExtCall.callDestroyLight = 1 ∧
    (create_material_v1 env qi s).ret.1 = env.createMaterialCode qi ∧
    (create_material_v1 env qi s).calls.count ExtCall.callCreateMaterial = 1 ∧
    (destroy_material_v1 env qh s).ret = env.destroyMaterialCode qh ∧
    (destroy_material_v1 env qh s).calls.count ExtCall.callDestroyMaterial = 1 ∧
    (create_mesh_v2 env mi s).ret.1 = env.createMeshCode mi ∧
    (create_mesh_v2 env mi s).calls.count ExtCall.callCreateMesh = 1 ∧
    (create_light_v2 env li s).ret.1 = env.createLightCode li ∧
    (create_light_v2 env li s).calls.count ExtCall.callCreateLight = 1 := by
  by_cases h1 : env.createMeshCode mi = REMIXAPI_ERROR_CODE_SUCCESS <;>
    by_cases h2 : env.createLightCode li = REMIXAPI_ERROR_CODE_SUCCESS <;>
      simp_all [create_mesh_v1, destroy_mesh_v1, create_light_v1, destroy_light_v1,
        create_material_v1, destroy_material_v1, create_mesh_v2, create_light_v2,
        List.count_cons, List.count_nil]

/-- Claim C8: every Resource Gateway and Frame Driver operation of either
revision leaves the process-wide function table and loaded-library handle
exactly as it found them. -/
theorem C8_ops_preserve_state (env : Env) (ci : CameraInfo) (pri : PresentInfo)
    (mi : MeshInfo) (mh : MeshHandle) (li : LightInfo) (lh : LightHandle)
    (qi : MaterialInfo) (qh : MaterialHandle) (ii : InstanceInfo) (s : GState) :
    (setup_camera_v1 env ci s).state = s ∧
    (present_v1 env pri s).state = s ∧
    (create_mesh_v1 env mi s).state = s ∧
    (destroy_mesh_v1 env mh s).state = s ∧
    (create_light_v1 env li s).state = s ∧
    (destroy_light_v1 env lh s).state = s ∧
    (create_material_v1 env qi s).state = s ∧
    (destroy_material_v1 env qh s).state = s ∧
    (draw_instance_v1 env ii s).state = s ∧
    (draw_light_instance_v1 env lh s).state = s ∧
    (setup_camera_v2 env ci s).state = s ∧
    (present_v2 env pri s).state = s ∧
    (create_mesh_v2 env mi s).state = s ∧
    (create_light_v2 env li s).state = s ∧
    (draw_instance_v2 env ii s).state = s ∧
    (draw_light_instance_v2 env lh s).state = s := by
  by_cases h1 : env.createMeshCode mi = REMIXAPI_ERROR_CODE_SUCCESS <;>
    by_cases h2 : env.createLightCode li = REMIXAPI_ERROR_CODE_SUCCESS <;>
      simp_all [setup_camera_v1, present_v1, create_mesh_v1, destroy_mesh_v1,
        create_light_v1, destroy_light_v1, create_material_v1, destroy_material_v1,
        draw_instance_v1, draw_light_instance_v1, setup_camera_v2, present_v2,
        create_mesh_v2, create_light_v2, draw_instance_v2, draw_light_instance_v2]

/-- Claim C10: revision 1 declares `destroy` with an error-code result, yet on
the branch where the table's Shutdown entry is null control falls off the end
of the function without a return statement, so no defined value is returned
there. -/
theorem C10_destroy_missing_return (env : Env) (s : GState)
    (h : s.g_remix.Shutdown = 0) :
    sigV1 BoundaryOp.opDestroy = some RetShape.code ∧
    (destroy_v1 env s).ret = none := by
  simp [sigV1, destroy_v1, h]

/-- Claim C10, witness: on the zero-initialised globals, revision 1's destroy
is declared to return a code yet produces no defined value. -/
theorem C10_destroy_missing_return_witness :
    initialState.g_remix.Shutdown = 0 ∧
    (sigV1 BoundaryOp.opDestroy = some RetShape.code ∧
     (destroy_v1 baseEnv initialState).ret = none) :=
  ⟨rfl, C10_destroy_missing_return baseEnv initialState rfl⟩

end PyRtxRemix
